import Mathlib

/-!
Shallow embedding of the induction shrink-fit controller core
(state.rs, safety.rs, control.rs, sensors.rs).

Machine `f32` arithmetic is modelled over `ℚ` for the control/safety
logic (comparisons, clamps, PI updates) and over `ℝ` for the sensor
conversions that use `sqrtf`/`logf`.  Rust's `x.clamp(lo, hi)` is
embedded as `fclamp` below, mirroring its if-chain semantics.
-/

namespace ShrinkFit

/-- Operating modes of the control loop (state.rs `ControlMode`). -/
inductive ControlMode
  | Idle
  | ManualPower
  | Temperature
  | Cooldown
  deriving DecidableEq, Repr

/-- Fault codes of the safety monitor (state.rs `FaultCode`). -/
inductive FaultCode
  | None
  | PowerLimit
  | CoilOverTemp
  | ModuleOverTemp
  | PcbOverTemp
  | InterlockOpen
  | GateDriverFault
  | GateDriverNotReady
  | SensorFault
  | CurrentLimit
  deriving DecidableEq, Repr

/-- state.rs `POWER_LIMIT_KW`. -/
def POWER_LIMIT_KW : ℚ := 10

/-- state.rs `CURRENT_LIMIT_A`. -/
def CURRENT_LIMIT_A : ℚ := 150

/-- state.rs `COIL_TEMP_LIMIT_C`. -/
def COIL_TEMP_LIMIT_C : ℚ := 80

/-- state.rs `MODULE_TEMP_LIMIT_C`. -/
def MODULE_TEMP_LIMIT_C : ℚ := 35

/-- state.rs `PCB_TEMP_LIMIT_C`. -/
def PCB_TEMP_LIMIT_C : ℚ := 85

/-- safety.rs `POWER_OVERSHOOT_MARGIN`. -/
def POWER_OVERSHOOT_MARGIN : ℚ := 105 / 100

/-- Rust `f32::clamp(lo, hi)` on finite values: below `lo` gives `lo`,
above `hi` gives `hi`, otherwise the value itself. -/
def fclamp (x lo hi : ℚ) : ℚ :=
  if x < lo then lo else if x > hi then hi else x

/-- The measurement record (state.rs `Measurements`; the
`coil_temp_disconnected` flag is the field written by sensors.rs
`ads_task` and read by safety.rs). -/
structure Measurements where
  dc_voltage_v : ℚ
  coil_current_rms_a : ℚ
  coil_power_kw : ℚ
  coil_temp_c : ℚ
  pcb_temp_c : ℚ
  module_temp_c : ℚ
  object_temp_c : ℚ
  valid : Bool
  coil_temp_disconnected : Bool
  deriving DecidableEq, Repr

/-- The three active-low digital safety inputs sampled by the safety
task: `is_low()` readings of interlock, gate-driver fault, gate-driver
ready. -/
structure DigitalInputs where
  interlock_low : Bool
  gate_fault_low : Bool
  gate_ready_low : Bool
  deriving DecidableEq, Repr

/-- safety.rs `check_gpio_faults`: early-return chain over the three
digital inputs. -/
def check_gpio_faults (d : DigitalInputs) : FaultCode :=
  if d.interlock_low then FaultCode.InterlockOpen
  else if d.gate_fault_low then FaultCode.GateDriverFault
  else if d.gate_ready_low then FaultCode.GateDriverNotReady
  else FaultCode.None

/-- safety.rs `detect_measurement_fault`: early-return chain over the
measurement snapshot; the power/current checks sit inside
`if meas.valid`. -/
def detect_measurement_fault (m : Measurements) : FaultCode :=
  if m.coil_temp_disconnected then FaultCode.SensorFault
  else if m.coil_temp_c > COIL_TEMP_LIMIT_C then FaultCode.CoilOverTemp
  else if m.module_temp_c > MODULE_TEMP_LIMIT_C then FaultCode.ModuleOverTemp
  else if m.pcb_temp_c > PCB_TEMP_LIMIT_C then FaultCode.PcbOverTemp
  else if m.valid then
    if m.coil_power_kw > POWER_LIMIT_KW * POWER_OVERSHOOT_MARGIN then FaultCode.PowerLimit
    else if m.coil_current_rms_a > CURRENT_LIMIT_A then FaultCode.CurrentLimit
    else FaultCode.None
  else FaultCode.None

/-- safety.rs `evaluate_fault`: GPIO faults first; the measurement
faults are consulted only when the GPIO check returned `None`. -/
def evaluate_fault (d : DigitalInputs) (m : Measurements) : FaultCode :=
  let code := check_gpio_faults d
  if code = FaultCode.None then detect_measurement_fault m else code

/-- Modelled from the spec: the fixed-priority decision list of §4.3,
one (condition, code) pair per row in the documented order. -/
def faultTable (d : DigitalInputs) (m : Measurements) : List (Bool × FaultCode) :=
  [ (d.interlock_low, FaultCode.InterlockOpen),
    (d.gate_fault_low, FaultCode.GateDriverFault),
    (d.gate_ready_low, FaultCode.GateDriverNotReady),
    (m.coil_temp_disconnected, FaultCode.SensorFault),
    (decide (m.coil_temp_c > COIL_TEMP_LIMIT_C), FaultCode.CoilOverTemp),
    (decide (m.module_temp_c > MODULE_TEMP_LIMIT_C), FaultCode.ModuleOverTemp),
    (decide (m.pcb_temp_c > PCB_TEMP_LIMIT_C), FaultCode.PcbOverTemp),
    (m.valid && decide (m.coil_power_kw > POWER_LIMIT_KW * POWER_OVERSHOOT_MARGIN),
      FaultCode.PowerLimit),
    (m.valid && decide (m.coil_current_rms_a > CURRENT_LIMIT_A), FaultCode.CurrentLimit) ]

/-- Modelled from the spec: first-match-wins evaluation of a decision
list, `None` when no row fires. -/
def firstMatch : List (Bool × FaultCode) → FaultCode
  | [] => FaultCode.None
  | (b, c) :: rest => if b then c else firstMatch rest

/-- The stored fault record (state.rs `FaultState`). -/
structure FaultState where
  code : FaultCode
  deriving DecidableEq, Repr

/-- safety.rs `clear_fault`: overwrite the stored code with `None`. -/
def clear_fault (_s : FaultState) : FaultState :=
  { code := FaultCode.None }

/-- One iteration of the safety task loop (safety.rs `safety_task`):
evaluate the fault code and store it when it differs from the stored
one (the logging on the edge is collaborator output, not state). -/
def safety_task_step (d : DigitalInputs) (m : Measurements) (s : FaultState) : FaultState :=
  let code := evaluate_fault d m
  if s.code ≠ code then { code := code } else s

/-- control.rs `BASE_FREQUENCY_HZ`. -/
def BASE_FREQUENCY_HZ : ℚ := 29700

/-- control.rs `MIN_FREQUENCY_HZ`. -/
def MIN_FREQUENCY_HZ : ℚ := 26000

/-- control.rs `MAX_FREQUENCY_HZ`. -/
def MAX_FREQUENCY_HZ : ℚ := 32000

/-- control.rs `CONTROL_DT_S`. -/
def CONTROL_DT_S : ℚ := 1 / 100

/-- control.rs `TARGET_TOLERANCE_C`. -/
def TARGET_TOLERANCE_C : ℚ := 2

/-- control.rs `PowerController` state: switching frequency plus
integrator. -/
structure PowerController where
  freq_hz : ℚ
  integrator : ℚ
  deriving DecidableEq, Repr

/-- control.rs `PowerController::new`. -/
def PowerController.new (initial_freq : ℚ) : PowerController :=
  { freq_hz := initial_freq, integrator := 0 }

/-- control.rs `PowerController::reset`. -/
def PowerController.reset (_s : PowerController) (initial_freq : ℚ) : PowerController :=
  { freq_hz := initial_freq, integrator := 0 }

/-- control.rs `PowerController::update` (KP = 60, KI = 8); the Rust
method mutates `self` and returns the new frequency, embedded here as
the successor state whose `freq_hz` is that return value. -/
def PowerController.update (s : PowerController) (setpoint_kw measured_kw dt : ℚ) :
    PowerController :=
  let error := setpoint_kw - measured_kw
  let integrator := fclamp (s.integrator + error * 8 * dt) (-2000) 2000
  let freq := fclamp (s.freq_hz + 60 * error + integrator) MIN_FREQUENCY_HZ MAX_FREQUENCY_HZ
  { freq_hz := freq, integrator := integrator }

/-- control.rs `TemperatureController` state: integrator only. -/
structure TemperatureController where
  integrator : ℚ
  deriving DecidableEq, Repr

/-- control.rs `TemperatureController::new`. -/
def TemperatureController.new : TemperatureController :=
  { integrator := 0 }

/-- control.rs `TemperatureController::reset`. -/
def TemperatureController.reset (_s : TemperatureController) : TemperatureController :=
  { integrator := 0 }

/-- control.rs `TemperatureController::update` (KP = 0.08, KI = 0.03):
error floored at -20, integrator clamped to [0, POWER_LIMIT_KW];
returns the successor state and the requested power output. -/
def TemperatureController.update (s : TemperatureController) (target_c measured_c dt : ℚ) :
    TemperatureController × ℚ :=
  let error := max (target_c - measured_c) (-20)
  let integrator := fclamp (s.integrator + error * (3 / 100) * dt) 0 POWER_LIMIT_KW
  ({ integrator := integrator }, fclamp ((8 / 100) * error + integrator) 0 POWER_LIMIT_KW)

/-- The control task's loop-carried local state (control.rs
`control_task` locals), plus `pwm_on`, the physical PWM device state
toggled by the `pwm_enable`/`pwm_disable` calls. -/
structure ControlState where
  power_ctrl : PowerController
  temp_ctrl : TemperatureController
  run_active : Bool
  last_button_low : Bool
  pwm_running : Bool
  pwm_on : Bool
  last_mode : ControlMode
  deriving DecidableEq, Repr

/-- What one control tick reads from outside its own locals: the
settings snapshot, the stored fault code, the run-button level, the
debounce test `now - last_toggle >= RUN_DEBOUNCE`, and the measurement
fields the tick uses. -/
structure ControlInput where
  mode : ControlMode
  manual_power_kw : ℚ
  target_temp_c : ℚ
  fault : FaultCode
  button_low : Bool
  debounce_elapsed : Bool
  coil_power_kw : ℚ
  object_temp_c : ℚ
  deriving DecidableEq, Repr

/-- What one control tick drives and publishes: the GPIO outputs set
during the tick and the `ControlStatus` record written at its end. -/
structure ControlOutput where
  solenoid : Bool
  ls_enable : Bool
  hs_enable : Bool
  heating_enabled : Bool
  run_active : Bool
  target_reached : Bool
  cooldown_active : Bool
  power_setpoint_kw : ℚ
  switching_freq_hz : ℚ
  fault : FaultCode
  mode : ControlMode
  deriving DecidableEq, Repr

/-- control.rs `control_task` lines 47-54: when the settings mode
differs from `last_mode`, reset both controllers, clear the run latch,
disable the PWM and record the new mode. -/
def modeTransition (s : ControlState) (mode : ControlMode) : ControlState :=
  if mode ≠ s.last_mode then
    { s with
      power_ctrl := s.power_ctrl.reset BASE_FREQUENCY_HZ
      temp_ctrl := s.temp_ctrl.reset
      run_active := false
      pwm_running := false
      pwm_on := false
      last_mode := mode }
  else s

/-- control.rs `control_task` lines 56-66: debounced run-button edge
handling; a qualifying press toggles `run_active` only in ManualPower
or Temperature mode. -/
def buttonPhase (s : ControlState) (mode : ControlMode) (button_low debounce_elapsed : Bool) :
    ControlState :=
  if button_low ≠ s.last_button_low then
    let s1 :=
      if button_low && debounce_elapsed then
        if mode = ControlMode.ManualPower ∨ mode = ControlMode.Temperature then
          { s with run_active := !s.run_active }
        else s
      else s
    { s1 with last_button_low := button_low }
  else s

/-- control.rs `control_task` lines 68-75: an active fault or a mode
outside ManualPower/Temperature forces `run_active` to false. -/
def faultForce (s : ControlState) (mode : ControlMode) (fault : FaultCode) : ControlState :=
  if fault ≠ FaultCode.None ∨
      ¬(mode = ControlMode.ManualPower ∨ mode = ControlMode.Temperature) then
    { s with run_active := false }
  else s

/-- The per-mode `match` of control.rs `control_task` lines 82-139
together with the status publish of lines 141-151, run on the state
`s3` left by the mode-transition, button and fault-forcing phases. -/
def controlMatch (s3 : ControlState) (mode : ControlMode) (inp : ControlInput)
    (fault : FaultCode) : ControlState × ControlOutput :=
  match mode with
  | ControlMode.Cooldown =>
    let s4 := { s3 with pwm_running := false, pwm_on := false, run_active := false }
    (s4,
      { solenoid := true, ls_enable := false, hs_enable := false,
        heating_enabled := false, run_active := s4.run_active,
        target_reached := false, cooldown_active := true,
        power_setpoint_kw := 0, switching_freq_hz := 0,
        fault := fault, mode := mode })
  | ControlMode.Idle =>
    let s4 := { s3 with pwm_running := false, pwm_on := false, run_active := false }
    (s4,
      { solenoid := false, ls_enable := false, hs_enable := false,
        heating_enabled := false, run_active := s4.run_active,
        target_reached := false, cooldown_active := false,
        power_setpoint_kw := 0, switching_freq_hz := 0,
        fault := fault, mode := mode })
  | ControlMode.ManualPower | ControlMode.Temperature =>
    let measured_power := inp.coil_power_kw
    let object_temp := inp.object_temp_c
    let heating := s3.run_active && decide (fault = FaultCode.None)
    let step :=
      if mode = ControlMode.ManualPower then
        (s3.temp_ctrl, false, fclamp inp.manual_power_kw 0 POWER_LIMIT_KW)
      else
        let target_reached := decide (object_temp ≥ inp.target_temp_c - TARGET_TOLERANCE_C)
        let upd := s3.temp_ctrl.update inp.target_temp_c object_temp CONTROL_DT_S
        (upd.1, target_reached, fclamp upd.2 0 POWER_LIMIT_KW)
    let target_reached := step.2.1
    let power_setpoint := step.2.2
    let s4 := { s3 with temp_ctrl := step.1 }
    if heating then
      let pc := s4.power_ctrl.update power_setpoint measured_power CONTROL_DT_S
      let s5 := { s4 with power_ctrl := pc, pwm_on := true, pwm_running := true }
      (s5,
        { solenoid := false, ls_enable := true, hs_enable := true,
          heating_enabled := heating && s5.pwm_running, run_active := s5.run_active,
          target_reached := target_reached, cooldown_active := false,
          power_setpoint_kw := power_setpoint, switching_freq_hz := pc.freq_hz,
          fault := fault, mode := mode })
    else
      let s5 := if s4.pwm_running then { s4 with pwm_on := false, pwm_running := false } else s4
      (s5,
        { solenoid := false, ls_enable := false, hs_enable := false,
          heating_enabled := heating && s5.pwm_running, run_active := s5.run_active,
          target_reached := target_reached, cooldown_active := false,
          power_setpoint_kw := power_setpoint,
          switching_freq_hz := s5.power_ctrl.freq_hz,
          fault := fault, mode := mode })

/-- One iteration of the control task loop (control.rs `control_task`
lines 42-153): mode-transition reset, button handling, fault forcing,
then the per-mode match and status publish. -/
def controlStep (s0 : ControlState) (inp : ControlInput) : ControlState × ControlOutput :=
  let mode := inp.mode
  let fault := inp.fault
  let s1 := modeTransition s0 mode
  let s2 := buttonPhase s1 mode inp.button_low inp.debounce_elapsed
  let s3 := faultForce s2 mode fault
  controlMatch s3 mode inp fault

/-- sensors.rs `PAIRS_PER_BATCH`: pairs per RMS window. -/
def PAIRS_PER_BATCH : ℕ := 512

/-- Rust `f32::clamp` on the real-valued sensor path. -/
noncomputable def fclampR (x lo hi : ℝ) : ℝ :=
  if x < lo then lo else if x > hi then hi else x

/-- The window computation of sensors.rs `adc_task` lines 114-137, on
the per-sample converted (dc_voltage, coil_current) pairs of one
buffer: accumulate sum of squares and sum of products, divide by
`PAIRS_PER_BATCH`, take `sqrtf(.max(0.0))` for the RMS values and
clamp the mean power (scaled to kW) to [0, 20]. -/
noncomputable def rms_window (pairs : List (ℝ × ℝ)) : ℝ × ℝ × ℝ :=
  let sum_v_sq := (pairs.map fun p => p.1 * p.1).sum
  let sum_i_sq := (pairs.map fun p => p.2 * p.2).sum
  let sum_vi := (pairs.map fun p => p.1 * p.2).sum
  let samples : ℝ := (PAIRS_PER_BATCH : ℝ)
  let vrms := Real.sqrt (max (sum_v_sq / samples) 0)
  let irms := Real.sqrt (max (sum_i_sq / samples) 0)
  let power_kw := fclampR (sum_vi / samples / 1000) 0 20
  (vrms, irms, power_kw)

/-- sensors.rs `ntc_pullup_temp` `SERIES_R`. -/
def NTC_SERIES_R : ℝ := 10000

/-- sensors.rs `ntc_pullup_temp` `BETA`. -/
def NTC_BETA : ℝ := 3950

/-- sensors.rs `ntc_pullup_temp` `R0`. -/
def NTC_R0 : ℝ := 10000

/-- sensors.rs `ntc_pullup_temp` `T0_K`. -/
noncomputable def NTC_T0_K : ℝ := 298.15

/-- The divider resistance computed inside sensors.rs
`ntc_pullup_temp`: `SERIES_R * voltage / (5.0 - voltage)`. -/
noncomputable def ntc_pullup_resistance (voltage : ℝ) : ℝ :=
  NTC_SERIES_R * voltage / (5 - voltage)

/-- sensors.rs `ntc_pullup_temp`: guard against rail-saturated
voltages, then pull-up divider resistance and the Beta equation,
result in Celsius. -/
noncomputable def ntc_pullup_temp (voltage : ℝ) : ℝ :=
  if voltage ≤ 0.01 ∨ voltage ≥ 4.99 then 0
  else
    let resistance := NTC_SERIES_R * voltage / (5 - voltage)
    let inv_t := 1 / NTC_T0_K + Real.log (resistance / NTC_R0) / NTC_BETA
    1 / inv_t - 273.15

/-- sensors.rs `MODULE_NTC_BETA`. -/
def MODULE_NTC_BETA : ℝ := 3468

/-- sensors.rs `MODULE_NTC_R0`. -/
def MODULE_NTC_R0 : ℝ := 5000

/-- sensors.rs `MODULE_NTC_T0_C`. -/
def MODULE_NTC_T0_C : ℝ := 25

/-- sensors.rs `ntc_beta_temp`: guard against tiny resistances, then
the Beta equation with the module NTC constants, result in Celsius. -/
noncomputable def ntc_beta_temp (resistance : ℝ) : ℝ :=
  if resistance ≤ 10 then 0
  else
    let t0_k := MODULE_NTC_T0_C + 273.15
    let inv_t := 1 / t0_k + Real.log (resistance / MODULE_NTC_R0) / MODULE_NTC_BETA
    1 / inv_t - 273.15

/-- A fold of `PowerController.update` over an arbitrary sequence of
(setpoint, measured, dt) inputs, started from `PowerController::new`. -/
def powerRun (f : ℚ) (inputs : List (ℚ × ℚ × ℚ)) : PowerController :=
  inputs.foldl (fun s x => s.update x.1 x.2.1 x.2.2) (PowerController.new f)

/-- A fold of `TemperatureController.update` over an arbitrary
sequence of (target, measured, dt) inputs, started from
`TemperatureController::new`. -/
def tempRun (inputs : List (ℚ × ℚ × ℚ)) : TemperatureController :=
  inputs.foldl (fun s x => (s.update x.1 x.2.1 x.2.2).1) TemperatureController.new

theorem fclamp_mem (x lo hi : ℚ) (h : lo ≤ hi) : lo ≤ fclamp x lo hi ∧ fclamp x lo hi ≤ hi := by
  unfold fclamp
  split_ifs with h1 h2
  · exact ⟨le_refl lo, h⟩
  · exact ⟨h, le_refl hi⟩
  · push_neg at h1 h2
    exact ⟨h1, h2⟩

theorem power_update_integrator_mem (s : PowerController) (sp ms dt : ℚ) :
    -2000 ≤ (s.update sp ms dt).integrator ∧ (s.update sp ms dt).integrator ≤ 2000 := by
  unfold PowerController.update
  exact fclamp_mem _ _ _ (by norm_num)

theorem temp_update_integrator_mem (s : TemperatureController) (t m dt : ℚ) :
    0 ≤ (s.update t m dt).1.integrator ∧ (s.update t m dt).1.integrator ≤ POWER_LIMIT_KW := by
  unfold TemperatureController.update
  exact fclamp_mem _ _ _ (by norm_num [POWER_LIMIT_KW])

theorem power_fold_integrator_mem (inputs : List (ℚ × ℚ × ℚ)) (s : PowerController)
    (h : -2000 ≤ s.integrator ∧ s.integrator ≤ 2000) :
    -2000 ≤ (inputs.foldl (fun s x => s.update x.1 x.2.1 x.2.2) s).integrator ∧
      (inputs.foldl (fun s x => s.update x.1 x.2.1 x.2.2) s).integrator ≤ 2000 := by
  induction inputs generalizing s with
  | nil => exact h
  | cons a l ih => exact ih _ (power_update_integrator_mem s a.1 a.2.1 a.2.2)

theorem temp_fold_integrator_mem (inputs : List (ℚ × ℚ × ℚ)) (s : TemperatureController)
    (h : 0 ≤ s.integrator ∧ s.integrator ≤ POWER_LIMIT_KW) :
    0 ≤ (inputs.foldl (fun s x => (s.update x.1 x.2.1 x.2.2).1) s).integrator ∧
      (inputs.foldl (fun s x => (s.update x.1 x.2.1 x.2.2).1) s).integrator ≤ POWER_LIMIT_KW := by
  induction inputs generalizing s with
  | nil => exact h
  | cons a l ih => exact ih _ (temp_update_integrator_mem s a.1 a.2.1 a.2.2)

/-- C3: the temperature controller's integrator always stays in
[0, POWER_LIMIT_KW] and the power controller's in [-2000, 2000]; both
controllers start from and reset to integrator 0, each single update
lands back inside the bounds, and hence any sequence of updates from
`new` keeps the integrator inside the bounds. -/
theorem integrator_bounds_invariant :
    (∀ f, (PowerController.new f).integrator = 0) ∧
    (∀ s f, (PowerController.reset s f).integrator = 0) ∧
    (TemperatureController.new.integrator = 0) ∧
    (∀ s, (TemperatureController.reset s).integrator = 0) ∧
    (∀ s sp ms dt, -2000 ≤ (PowerController.update s sp ms dt).integrator ∧
      (PowerController.update s sp ms dt).integrator ≤ 2000) ∧
    (∀ s t m dt, 0 ≤ (TemperatureController.update s t m dt).1.integrator ∧
      (TemperatureController.update s t m dt).1.integrator ≤ POWER_LIMIT_KW) ∧
    (∀ f inputs, -2000 ≤ (powerRun f inputs).integrator ∧
      (powerRun f inputs).integrator ≤ 2000) ∧
    (∀ inputs, 0 ≤ (tempRun inputs).integrator ∧
      (tempRun inputs).integrator ≤ POWER_LIMIT_KW) := by
  refine ⟨fun f => rfl, fun s f => rfl, rfl, fun s => rfl,
    power_update_integrator_mem, temp_update_integrator_mem, ?_, ?_⟩
  · intro f inputs
    exact power_fold_integrator_mem inputs _ (by norm_num [PowerController.new])
  · intro inputs
    exact temp_fold_integrator_mem inputs _
      (by norm_num [TemperatureController.new, POWER_LIMIT_KW])

/-- C10: `clear_fault` unconditionally replaces any stored code with
`None`, with no re-check of the underlying condition; a still-present
condition is re-raised by the next `safety_task` evaluation, whose
stored code after one step is exactly `evaluate_fault` of the current
inputs. -/
theorem clear_fault_unconditional :
    (∀ s, clear_fault s = { code := FaultCode.None }) ∧
    (∀ s d m, (safety_task_step d m (clear_fault s)).code = evaluate_fault d m) := by
  refine ⟨fun s => rfl, ?_⟩
  intro s d m
  simp only [safety_task_step, clear_fault]
  split_ifs with h
  · rfl
  · simp only [ne_eq, not_not] at h
    exact h

/-- C2: one fault evaluation returns exactly the first matching code
of the fixed-priority list (digital inputs, sensor disconnect,
temperatures, then the validity-gated power and current checks); in
particular simultaneous interlock-open and coil-over-temperature
conditions yield `InterlockOpen`. -/
theorem evaluate_fault_first_match :
    (∀ d m, evaluate_fault d m = firstMatch (faultTable d m)) ∧
    (∀ d m, d.interlock_low = true → m.coil_temp_c > COIL_TEMP_LIMIT_C →
      evaluate_fault d m = FaultCode.InterlockOpen) := by
  constructor
  · intro d m
    obtain ⟨il, gf, gr⟩ := d
    cases il <;> cases gf <;> cases gr <;>
      simp only [evaluate_fault, check_gpio_faults, faultTable, firstMatch] <;>
      simp only [if_true, if_false, Bool.false_eq_true, Bool.true_eq_false, ite_true,
        ite_false, reduceCtorEq] <;>
      try rfl
    simp only [detect_measurement_fault]
    cases hcd : m.coil_temp_disconnected <;> simp only [hcd, if_true, if_false, ite_true,
      ite_false, Bool.false_eq_true, Bool.true_eq_false]
    by_cases h1 : m.coil_temp_c > COIL_TEMP_LIMIT_C <;> simp only [h1, if_true, if_false,
      ite_true, ite_false, decide_eq_true_eq, decide_eq_false_iff_not]
    all_goals by_cases h2 : m.module_temp_c > MODULE_TEMP_LIMIT_C <;> simp only [h2, if_true,
      if_false, ite_true, ite_false]
    all_goals by_cases h3 : m.pcb_temp_c > PCB_TEMP_LIMIT_C <;> simp only [h3, if_true,
      if_false, ite_true, ite_false]
    all_goals cases hv : m.valid <;> simp only [hv, if_true, if_false, ite_true, ite_false,
      Bool.false_eq_true, Bool.true_eq_false, Bool.true_and, Bool.false_and]
    all_goals by_cases h4 : m.coil_power_kw > POWER_LIMIT_KW * POWER_OVERSHOOT_MARGIN <;>
      simp only [h4, if_true, if_false, ite_true, ite_false]
    all_goals by_cases h5 : m.coil_current_rms_a > CURRENT_LIMIT_A <;>
      simp [h4, h5]
  · intro d m h1 h2
    simp [evaluate_fault, check_gpio_faults, h1]

/-- A digital-input vector with the interlock reading low. -/
def interlockLowInputs : DigitalInputs :=
  { interlock_low := true, gate_fault_low := false, gate_ready_low := false }

/-- A measurement snapshot with the coil over its temperature limit. -/
def coilHotMeasurements : Measurements :=
  { dc_voltage_v := 0, coil_current_rms_a := 0, coil_power_kw := 0, coil_temp_c := 100,
    pcb_temp_c := 0, module_temp_c := 0, object_temp_c := 0, valid := true,
    coil_temp_disconnected := false }

theorem evaluate_fault_first_match_witness :
    interlockLowInputs.interlock_low = true ∧
    coilHotMeasurements.coil_temp_c > COIL_TEMP_LIMIT_C ∧
    evaluate_fault interlockLowInputs coilHotMeasurements = FaultCode.InterlockOpen :=
  ⟨rfl, by norm_num [coilHotMeasurements, COIL_TEMP_LIMIT_C],
    evaluate_fault_first_match.2 interlockLowInputs coilHotMeasurements rfl
      (by norm_num [coilHotMeasurements, COIL_TEMP_LIMIT_C])⟩

/-- C5: `PowerLimit` is returned only when the snapshot is valid and
power exceeds the limit times the 1.05 margin, `CurrentLimit` only
when it is valid and RMS current exceeds the limit; an invalid
snapshot suppresses exactly these two checks, while the disconnect and
temperature checks (and the digital-input checks) do not depend on
validity. -/
theorem measurement_fault_valid_gating :
    (∀ m, detect_measurement_fault m = FaultCode.PowerLimit →
      m.valid = true ∧ m.coil_power_kw > POWER_LIMIT_KW * POWER_OVERSHOOT_MARGIN) ∧
    (∀ m, detect_measurement_fault m = FaultCode.CurrentLimit →
      m.valid = true ∧ m.coil_current_rms_a > CURRENT_LIMIT_A) ∧
    (∀ m, m.valid = false →
      detect_measurement_fault m ≠ FaultCode.PowerLimit ∧
      detect_measurement_fault m ≠ FaultCode.CurrentLimit) ∧
    (∀ m b, (m.coil_temp_disconnected = true ∨ m.coil_temp_c > COIL_TEMP_LIMIT_C ∨
        m.module_temp_c > MODULE_TEMP_LIMIT_C ∨ m.pcb_temp_c > PCB_TEMP_LIMIT_C) →
      detect_measurement_fault { m with valid := b } = detect_measurement_fault m) ∧
    (∀ d m, check_gpio_faults d ≠ FaultCode.None → evaluate_fault d m = check_gpio_faults d) := by
  refine ⟨?_, ?_, ?_, ?_, ?_⟩
  · intro m h
    unfold detect_measurement_fault at h
    split_ifs at h <;> simp_all
  · intro m h
    unfold detect_measurement_fault at h
    split_ifs at h <;> simp_all
  · intro m h
    unfold detect_measurement_fault
    split_ifs <;> simp_all
  · intro m b h
    unfold detect_measurement_fault
    rcases h with h | h | h | h <;> split_ifs <;> simp_all
  · intro d m h
    simp [evaluate_fault, if_neg h]

/-- A valid measurement snapshot whose power exceeds the overshoot
margin while every other monitored quantity is nominal. -/
def overPowerMeasurements : Measurements :=
  { dc_voltage_v := 0, coil_current_rms_a := 0, coil_power_kw := 11, coil_temp_c := 0,
    pcb_temp_c := 0, module_temp_c := 0, object_temp_c := 0, valid := true,
    coil_temp_disconnected := false }

theorem measurement_fault_valid_gating_witness :
    detect_measurement_fault overPowerMeasurements = FaultCode.PowerLimit ∧
    overPowerMeasurements.valid = true ∧
    overPowerMeasurements.coil_power_kw > POWER_LIMIT_KW * POWER_OVERSHOOT_MARGIN := by
  have h : detect_measurement_fault overPowerMeasurements = FaultCode.PowerLimit := by
    norm_num [detect_measurement_fault, overPowerMeasurements, COIL_TEMP_LIMIT_C,
      MODULE_TEMP_LIMIT_C, PCB_TEMP_LIMIT_C, POWER_LIMIT_KW, POWER_OVERSHOOT_MARGIN]
  exact ⟨h, measurement_fault_valid_gating.1 overPowerMeasurements h⟩

/-- C4: whenever the settings mode differs from the previously-seen
mode, the mode-transition block run at the top of the tick (before the
per-mode match) resets both controllers to integrator 0 (the power
controller back to the base frequency), forces the run latch off and
the PWM off, and records the new mode — regardless of the prior
state. -/
theorem mode_change_resets (s : ControlState) (mode : ControlMode)
    (h : mode ≠ s.last_mode) :
    modeTransition s mode =
      { power_ctrl := PowerController.new BASE_FREQUENCY_HZ,
        temp_ctrl := TemperatureController.new,
        run_active := false, last_button_low := s.last_button_low,
        pwm_running := false, pwm_on := false, last_mode := mode } := by
  simp [modeTransition, h, PowerController.reset, PowerController.new,
    TemperatureController.reset, TemperatureController.new]

/-- A mid-run control state in Idle whose controllers are wound up and
whose PWM is running. -/
def preResetState : ControlState :=
  { power_ctrl := { freq_hz := 30000, integrator := 500 },
    temp_ctrl := { integrator := 3 },
    run_active := true, last_button_low := false, pwm_running := true, pwm_on := true,
    last_mode := ControlMode.Idle }

theorem mode_change_resets_witness :
    ControlMode.ManualPower ≠ preResetState.last_mode ∧
    modeTransition preResetState ControlMode.ManualPower =
      { power_ctrl := PowerController.new BASE_FREQUENCY_HZ,
        temp_ctrl := TemperatureController.new,
        run_active := false, last_button_low := preResetState.last_button_low,
        pwm_running := false, pwm_on := false, last_mode := ControlMode.ManualPower } :=
  ⟨by simp [preResetState],
    mode_change_resets preResetState ControlMode.ManualPower (by simp [preResetState])⟩

/-- A control state sitting in Temperature mode with reset
controllers. -/
def tempTickState : ControlState :=
  { power_ctrl := PowerController.new BASE_FREQUENCY_HZ,
    temp_ctrl := TemperatureController.new,
    run_active := false, last_button_low := false, pwm_running := false, pwm_on := false,
    last_mode := ControlMode.Temperature }

/-- A Temperature-mode tick input with target 120 °C and an object
temperature of 119 °C. -/
def tempTickInput : ControlInput :=
  { mode := ControlMode.Temperature, manual_power_kw := 5, target_temp_c := 120,
    fault := FaultCode.None, button_low := false, debounce_elapsed := false,
    coil_power_kw := 0, object_temp_c := 119 }

/-- C6: in Temperature mode the published `target_reached` flag is
exactly `object_temp ≥ target_temp - 2`; at target 120 °C and object
temperature 119 °C the tick therefore publishes `target_reached =
true` (119 ≥ 118), right at the tolerance-band boundary. -/
theorem target_reached_band :
    (∀ s inp, inp.mode = ControlMode.Temperature →
      ((controlStep s inp).2.target_reached = true ↔
        inp.object_temp_c ≥ inp.target_temp_c - TARGET_TOLERANCE_C)) ∧
    (controlStep tempTickState tempTickInput).2.target_reached = true := by
  have hmain : ∀ s inp, inp.mode = ControlMode.Temperature →
      ((controlStep s inp).2.target_reached = true ↔
        inp.object_temp_c ≥ inp.target_temp_c - TARGET_TOLERANCE_C) := by
    intro s inp hmode
    obtain ⟨mode, man, tgt, fault, btn, deb, pw, ot⟩ := inp
    simp only at hmode
    subst hmode
    simp only [controlStep, controlMatch]
    split_ifs <;> simp_all
  refine ⟨hmain, ?_⟩
  exact (hmain tempTickState tempTickInput rfl).mpr
    (by norm_num [tempTickInput, TARGET_TOLERANCE_C])

theorem target_reached_band_witness :
    tempTickInput.mode = ControlMode.Temperature ∧
    ((controlStep tempTickState tempTickInput).2.target_reached = true ↔
      tempTickInput.object_temp_c ≥ tempTickInput.target_temp_c - TARGET_TOLERANCE_C) :=
  ⟨rfl, target_reached_band.1 tempTickState tempTickInput rfl⟩

theorem phases_pwm_inv (s : ControlState) (mode : ControlMode) (b d : Bool)
    (fault : FaultCode) (h : s.pwm_on = s.pwm_running) :
    (faultForce (buttonPhase (modeTransition s mode) mode b d) mode fault).pwm_on =
      (faultForce (buttonPhase (modeTransition s mode) mode b d) mode fault).pwm_running := by
  unfold modeTransition buttonPhase faultForce
  split_ifs <;> simp [h]

theorem faultForce_run_false (s : ControlState) (mode : ControlMode) (fault : FaultCode)
    (h : fault ≠ FaultCode.None ∨
      ¬(mode = ControlMode.ManualPower ∨ mode = ControlMode.Temperature)) :
    (faultForce s mode fault).run_active = false := by
  unfold faultForce
  rw [if_pos h]

theorem controlMatch_outputs_off (s3 : ControlState) (mode : ControlMode)
    (inp : ControlInput) (fault : FaultCode) (hinv : s3.pwm_on = s3.pwm_running)
    (h : s3.run_active = false ∨ mode = ControlMode.Cooldown ∨ mode = ControlMode.Idle) :
    (controlMatch s3 mode inp fault).1.run_active = false ∧
    (controlMatch s3 mode inp fault).1.pwm_on = false ∧
    (controlMatch s3 mode inp fault).2.ls_enable = false ∧
    (controlMatch s3 mode inp fault).2.hs_enable = false ∧
    (controlMatch s3 mode inp fault).2.heating_enabled = false := by
  cases mode <;> simp only [controlMatch] <;> (try split_ifs) <;> simp_all

theorem controlMatch_heating_needs_run (s3 : ControlState) (mode : ControlMode)
    (inp : ControlInput) (fault : FaultCode) :
    (controlMatch s3 mode inp fault).2.heating_enabled = true →
      (controlMatch s3 mode inp fault).1.run_active = true ∧ fault = FaultCode.None := by
  cases mode <;> simp only [controlMatch] <;> (try split_ifs) <;> simp_all

/-- C1: on a tick whose observed fault code is not `None`, or whose
mode is neither ManualPower nor Temperature, the run latch ends the
tick false and heating is off for the tick: the PWM device ends
disabled and both enable lines are driven low (given the loop
invariant that the PWM device state mirrors `pwm_running`);
conversely, the tick reports heating enabled only when the run latch
is set and the observed fault code is `None`. -/
theorem fault_preempts_heating (s : ControlState) (inp : ControlInput)
    (hpwm : s.pwm_on = s.pwm_running) :
    ((inp.fault ≠ FaultCode.None ∨
        (inp.mode ≠ ControlMode.ManualPower ∧ inp.mode ≠ ControlMode.Temperature)) →
      (controlStep s inp).1.run_active = false ∧
      (controlStep s inp).1.pwm_on = false ∧
      (controlStep s inp).2.ls_enable = false ∧
      (controlStep s inp).2.hs_enable = false ∧
      (controlStep s inp).2.heating_enabled = false) ∧
    ((controlStep s inp).2.heating_enabled = true →
      (controlStep s inp).1.run_active = true ∧ inp.fault = FaultCode.None) := by
  have hinv := phases_pwm_inv s inp.mode inp.button_low inp.debounce_elapsed inp.fault hpwm
  constructor
  · intro h
    have hrun : (faultForce (buttonPhase (modeTransition s inp.mode) inp.mode
        inp.button_low inp.debounce_elapsed) inp.mode inp.fault).run_active = false ∨
        inp.mode = ControlMode.Cooldown ∨ inp.mode = ControlMode.Idle := by
      rcases h with hf | ⟨h1, h2⟩
      · exact Or.inl (faultForce_run_false _ _ _ (Or.inl hf))
      · cases hm : inp.mode
        · exact Or.inr (Or.inr rfl)
        · exact absurd hm h1
        · exact absurd hm h2
        · exact Or.inr (Or.inl rfl)
    exact controlMatch_outputs_off _ inp.mode inp inp.fault hinv hrun
  · exact controlMatch_heating_needs_run _ inp.mode inp inp.fault

/-- A running ManualPower control state whose PWM device state mirrors
`pwm_running`. -/
def faultTickState : ControlState :=
  { power_ctrl := PowerController.new BASE_FREQUENCY_HZ,
    temp_ctrl := TemperatureController.new,
    run_active := true, last_button_low := false, pwm_running := true, pwm_on := true,
    last_mode := ControlMode.ManualPower }

/-- A ManualPower tick input that observes an InterlockOpen fault. -/
def faultTickInput : ControlInput :=
  { mode := ControlMode.ManualPower, manual_power_kw := 5, target_temp_c := 120,
    fault := FaultCode.InterlockOpen, button_low := false, debounce_elapsed := false,
    coil_power_kw := 5, object_temp_c := 25 }

theorem fault_preempts_heating_witness :
    faultTickState.pwm_on = faultTickState.pwm_running ∧
    faultTickInput.fault ≠ FaultCode.None ∧
    ((controlStep faultTickState faultTickInput).1.run_active = false ∧
     (controlStep faultTickState faultTickInput).1.pwm_on = false ∧
     (controlStep faultTickState faultTickInput).2.ls_enable = false ∧
     (controlStep faultTickState faultTickInput).2.hs_enable = false ∧
     (controlStep faultTickState faultTickInput).2.heating_enabled = false) :=
  ⟨rfl, by simp [faultTickInput],
    (fault_preempts_heating faultTickState faultTickInput rfl).1
      (Or.inl (by simp [faultTickInput]))⟩

/-- A ManualPower control state whose power controller sits at the
base frequency with a wound-up integrator of 100. -/
def windUpState : ControlState :=
  { power_ctrl := { freq_hz := 29700, integrator := 100 },
    temp_ctrl := TemperatureController.new,
    run_active := true, last_button_low := false, pwm_running := true, pwm_on := true,
    last_mode := ControlMode.ManualPower }

/-- A ManualPower control state whose power controller sits at the
base frequency with integrator 0, as left by `new`/`reset`. -/
def steadyState : ControlState :=
  { power_ctrl := PowerController.new BASE_FREQUENCY_HZ,
    temp_ctrl := TemperatureController.new,
    run_active := true, last_button_low := false, pwm_running := true, pwm_on := true,
    last_mode := ControlMode.ManualPower }

/-- The C7 scenario tick input: ManualPower, manual setpoint 5 kW,
measured power 5 kW, no fault, no button edge. -/
def steadyInput : ControlInput :=
  { mode := ControlMode.ManualPower, manual_power_kw := 5, target_temp_c := 120,
    fault := FaultCode.None, button_low := false, debounce_elapsed := false,
    coil_power_kw := 5, object_temp_c := 25 }

/-- C7 counterexample: in the scenario of the claim (ManualPower,
manual setpoint 5 kW, measured 5 kW, run latch set, no fault) a
zero-error update does NOT leave the switching frequency unchanged
when the integrator is nonzero: from frequency 29700 and integrator
100 the tick publishes 29800. -/
theorem zero_error_moves_frequency :
    (controlStep windUpState steadyInput).2.switching_freq_hz ≠
      windUpState.power_ctrl.freq_hz := by
  norm_num [controlStep, controlMatch, modeTransition, buttonPhase, faultForce,
    windUpState, steadyInput, PowerController.update, fclamp, CONTROL_DT_S,
    POWER_LIMIT_KW, MIN_FREQUENCY_HZ, MAX_FREQUENCY_HZ]

/-- C7 (amended): in the ManualPower 5 kW / measured 5 kW scenario
with the run latch set and no fault, the power-controller error is 0;
provided additionally that the integrator is 0 and the frequency lies
inside [MIN_FREQUENCY_HZ, MAX_FREQUENCY_HZ] (both hold for the state
left by `new`/`reset`), the tick leaves the power controller, and
hence the published switching frequency, unchanged. -/
theorem zero_error_fixed_point (s : ControlState) (inp : ControlInput)
    (hmode : inp.mode = ControlMode.ManualPower)
    (hlast : s.last_mode = ControlMode.ManualPower)
    (hrun : s.run_active = true)
    (hbtn : inp.button_low = s.last_button_low)
    (hfault : inp.fault = FaultCode.None)
    (hman : inp.manual_power_kw = 5)
    (hmeas : inp.coil_power_kw = 5)
    (hint : s.power_ctrl.integrator = 0)
    (hlo : MIN_FREQUENCY_HZ ≤ s.power_ctrl.freq_hz)
    (hhi : s.power_ctrl.freq_hz ≤ MAX_FREQUENCY_HZ) :
    fclamp inp.manual_power_kw 0 POWER_LIMIT_KW - inp.coil_power_kw = 0 ∧
    (controlStep s inp).2.switching_freq_hz = s.power_ctrl.freq_hz ∧
    (controlStep s inp).1.power_ctrl = s.power_ctrl := by
  obtain ⟨mode, man, tgt, fault, btn, deb, pw, ot⟩ := inp
  obtain ⟨pc, tc, ra, lb, pr, po, lm⟩ := s
  obtain ⟨f, integ⟩ := pc
  simp only at hmode hlast hrun hbtn hfault hman hmeas hint hlo hhi
  subst hmode hlast hrun hbtn hfault hman hmeas hint
  have hsp : fclamp (5 : ℚ) 0 POWER_LIMIT_KW = 5 := by
    norm_num [fclamp, POWER_LIMIT_KW]
  refine ⟨by rw [hsp]; ring, ?_⟩
  have hupd : PowerController.update ⟨f, 0⟩ 5 5 CONTROL_DT_S = ⟨f, 0⟩ := by
    simp only [PowerController.update, fclamp, CONTROL_DT_S, MIN_FREQUENCY_HZ,
      MAX_FREQUENCY_HZ, PowerController.mk.injEq]
    norm_num
    have hlo' : (26000 : ℚ) ≤ f := by
      have := hlo
      norm_num [MIN_FREQUENCY_HZ] at this
      exact this
    have hhi' : f ≤ (32000 : ℚ) := by
      have := hhi
      norm_num [MAX_FREQUENCY_HZ] at this
      exact this
    split_ifs <;> linarith
  simp [controlStep, controlMatch, modeTransition, buttonPhase, faultForce, hsp, hupd]

theorem zero_error_fixed_point_witness :
    steadyInput.mode = ControlMode.ManualPower ∧
    steadyState.last_mode = ControlMode.ManualPower ∧
    steadyState.run_active = true ∧
    steadyInput.button_low = steadyState.last_button_low ∧
    steadyInput.fault = FaultCode.None ∧
    steadyInput.manual_power_kw = 5 ∧
    steadyInput.coil_power_kw = 5 ∧
    steadyState.power_ctrl.integrator = 0 ∧
    MIN_FREQUENCY_HZ ≤ steadyState.power_ctrl.freq_hz ∧
    steadyState.power_ctrl.freq_hz ≤ MAX_FREQUENCY_HZ ∧
    ((controlStep steadyState steadyInput).2.switching_freq_hz =
      steadyState.power_ctrl.freq_hz ∧
     (controlStep steadyState steadyInput).1.power_ctrl = steadyState.power_ctrl) := by
  have hlo : MIN_FREQUENCY_HZ ≤ steadyState.power_ctrl.freq_hz := by
    norm_num [steadyState, PowerController.new, MIN_FREQUENCY_HZ, BASE_FREQUENCY_HZ]
  have hhi : steadyState.power_ctrl.freq_hz ≤ MAX_FREQUENCY_HZ := by
    norm_num [steadyState, PowerController.new, MAX_FREQUENCY_HZ, BASE_FREQUENCY_HZ]
  have h := zero_error_fixed_point steadyState steadyInput rfl rfl rfl rfl rfl rfl rfl rfl
    hlo hhi
  exact ⟨rfl, rfl, rfl, rfl, rfl, rfl, rfl, rfl, hlo, hhi, h.2⟩

/-- C8: a full RMS window of constant converted pairs (v = 100 V,
i = 10 A) yields v_rms = 100, i_rms = 10 and power_kw = 1, matching
v_rms = sqrt(mean(v^2)), i_rms = sqrt(mean(i^2)) and
power_kw = clamp(mean(v*i)/1000, 0, 20). -/
theorem rms_window_constant_pairs :
    rms_window (List.replicate PAIRS_PER_BATCH ((100 : ℝ), (10 : ℝ))) = (100, 10, 1) := by
  have hs1 : Real.sqrt 10000 = 100 := by
    rw [show (10000 : ℝ) = 100 ^ 2 by norm_num, Real.sqrt_sq (by norm_num : (0 : ℝ) ≤ 100)]
  have hs2 : Real.sqrt 100 = 10 := by
    rw [show (100 : ℝ) = 10 ^ 2 by norm_num, Real.sqrt_sq (by norm_num : (0 : ℝ) ≤ 10)]
  simp only [rms_window, List.map_replicate, List.sum_replicate, nsmul_eq_mul,
    PAIRS_PER_BATCH, fclampR, Prod.mk.injEq]
  norm_num
  exact ⟨hs1, hs2⟩

/-- C9: for both NTC conversions, an input whose computed resistance
equals the calibration resistance R0 maps to T0 = 25 °C: the coil
pull-up channel returns 25 at every divider voltage V with
R_series*V/(5-V) = R0 (forcing V = 2.5), and the module Beta
conversion returns 25 at resistance MODULE_NTC_R0. -/
theorem ntc_r0_gives_t0 :
    (∀ v : ℝ, ntc_pullup_resistance v = NTC_R0 → ntc_pullup_temp v = 25) ∧
    ntc_beta_temp MODULE_NTC_R0 = 25 := by
  constructor
  · intro v hv
    simp only [ntc_pullup_resistance, NTC_SERIES_R, NTC_R0] at hv
    have h5 : (5 : ℝ) - v ≠ 0 := by
      intro h0
      rw [h0, div_zero] at hv
      norm_num at hv
    have hveq : v = 5 / 2 := by
      rw [div_eq_iff h5] at hv
      linarith
    subst hveq
    norm_num [ntc_pullup_temp, NTC_SERIES_R, NTC_R0, NTC_BETA, NTC_T0_K, Real.log_one]
  · norm_num [ntc_beta_temp, MODULE_NTC_R0, MODULE_NTC_T0_C, MODULE_NTC_BETA, Real.log_one]

theorem ntc_r0_gives_t0_witness :
    ntc_pullup_resistance (5 / 2) = NTC_R0 ∧ ntc_pullup_temp (5 / 2) = 25 :=
  ⟨by norm_num [ntc_pullup_resistance, NTC_SERIES_R, NTC_R0],
    ntc_r0_gives_t0.1 (5 / 2) (by norm_num [ntc_pullup_resistance, NTC_SERIES_R, NTC_R0])⟩

end ShrinkFit
